import Mathlib

/-!
# Verification of the slide-deck navigation controller

Shallow embedding of `src/presentation/script.js`, the navigation
controller of the repository.  The controller keeps a list of slide
elements, a current index, a breadcrumb container and two directional
buttons; navigation happens through a single `goTo` operation.

DOM state is modelled explicitly:
* a slide's `style.display` being `''` (visible) vs `'none'` (hidden)
  becomes a `Bool` per slide (`visible` list);
* a breadcrumb DOM node becomes a `Crumb` record holding its class
  string, its label text and the index its click listener passes to
  `goTo`;
* a button's `disabled` property becomes a `Bool`.

JavaScript numbers used as indices are modelled as `Int` (all values in
the program are small integers, where JS arithmetic is exact).  DOM
writes are additionally recorded in an event trace, so that the
"no render happens on a no-op" claims can be stated as "the trace is
empty", not merely "the state is unchanged".
-/

namespace SlideNav

/-- A slide element as the controller sees it: only its
`dataset.title` attribute matters (`none` when the attribute is
absent). -/
structure Slide where
  title : Option String
deriving DecidableEq, Repr

/-- A breadcrumb DOM node built by `updateBreadcrumbs`:
its `className`, the text of its label span, and the index captured by
its click listener (`crumb.addEventListener('click', () => goTo(index))`). -/
structure Crumb where
  className : String
  label : String
  clickIndex : Nat
deriving DecidableEq, Repr

/-- A crumb is flagged active when its class string is the one the code
builds for `index === current`. -/
def Crumb.isActive (c : Crumb) : Bool :=
  c.className = "crumb active"

/-- JavaScript `a || b` applied to `slide.dataset.title`: an absent
attribute is `undefined` and an empty string is falsy, so both fall
back to the default. -/
def jsOr (a : Option String) (b : String) : String :=
  match a with
  | none => b
  | some t => if t = "" then b else t

/-- One breadcrumb node, as built in the body of the `forEach` in
`updateBreadcrumbs`:
`crumb.className = 'crumb' + (index === current ? ' active' : '')`,
`label.textContent = slide.dataset.title || 'Слайд ' + (index + 1)`. -/
def mkCrumb (slide : Slide) (index current : Nat) : Crumb :=
  { className := "crumb" ++ (if index = current then " active" else "")
    label := jsOr slide.title ("Слайд " ++ toString (index + 1))
    clickIndex := index }

/-- The list of breadcrumb nodes produced by the
`slides.forEach((slide, index) => ...)` loop of `updateBreadcrumbs`,
with `k` the index of the first slide of the remaining list. -/
def buildCrumbs (slides : List Slide) (current : Nat) (k : Nat) : List Crumb :=
  match slides with
  | [] => []
  | s :: rest => mkCrumb s k current :: buildCrumbs rest current (k + 1)

/-- A DOM write performed by the controller. -/
inductive WriteEvent where
  /-- `slides[i].style.display = ...` (`true` = `''`, `false` = `'none'`). -/
  | setDisplay (slideIdx : Nat) (visible : Bool)
  /-- `breadcrumbs.innerHTML = ''`. -/
  | clearBreadcrumbs
  /-- `breadcrumbs.appendChild(crumb)`. -/
  | appendCrumb (c : Crumb)
  /-- `prevBtn.disabled = b`. -/
  | setPrevDisabled (b : Bool)
  /-- `nextBtn.disabled = b`. -/
  | setNextDisabled (b : Bool)
deriving DecidableEq, Repr

/-- The whole mutable state the script touches: the (immutable) slide
list, each slide's visibility, the module-level `current`, the
breadcrumb container's children and the two buttons' `disabled`
flags. -/
structure State where
  slides : List Slide
  visible : List Bool
  current : Nat
  crumbs : List Crumb
  prevDisabled : Bool
  nextDisabled : Bool
deriving DecidableEq, Repr

/-- `function updateBreadcrumbs()`: clears the container and rebuilds
every crumb from `slides` and `current`.  Returns the new state and the
DOM writes it performs. -/
def updateBreadcrumbs (st : State) : State × List WriteEvent :=
  let crumbs := buildCrumbs st.slides st.current 0
  ({ st with crumbs := crumbs },
   WriteEvent.clearBreadcrumbs :: crumbs.map WriteEvent.appendCrumb)

/-- `function updateNav()`:
`prevBtn.disabled = current === 0`,
`nextBtn.disabled = current === slides.length - 1` (the comparison is on
JS numbers, hence on `Int`: for an empty deck `slides.length - 1` is
`-1`). -/
def updateNav (st : State) : State × List WriteEvent :=
  let pd := decide (st.current = 0)
  let nd := decide ((st.current : Int) = (st.slides.length : Int) - 1)
  ({ st with prevDisabled := pd, nextDisabled := nd },
   [WriteEvent.setPrevDisabled pd, WriteEvent.setNextDisabled nd])

/-- The clamp on the first line of `goTo`:
`Math.max(0, Math.min(index, slides.length - 1))`. -/
def jsClamp (index : Int) (len : Nat) : Int :=
  max 0 (min index ((len : Int) - 1))

/-- `function goTo(index)`: clamp, return if the clamped target equals
`current`, otherwise hide the old slide, move `current`, show the new
slide, rebuild the breadcrumbs and recompute the buttons.  Returns the
new state and the trace of DOM writes. -/
def goTo (st : State) (index : Int) : State × List WriteEvent :=
  let nextIndex := jsClamp index st.slides.length
  if nextIndex = (st.current : Int) then (st, [])
  else
    let st1 : State := { st with visible := st.visible.set st.current false }
    let st2 : State := { st1 with current := nextIndex.toNat }
    let st3 : State := { st2 with visible := st2.visible.set st2.current true }
    let r4 := updateBreadcrumbs st3
    let r5 := updateNav r4.1
    (r5.1,
     WriteEvent.setDisplay st.current false ::
       WriteEvent.setDisplay st2.current true :: (r4.2 ++ r5.2))

/-- `function next() { goTo(current + 1); }` -/
def next (st : State) : State × List WriteEvent :=
  goTo st ((st.current : Int) + 1)

/-- `function prev() { goTo(current - 1); }` -/
def prev (st : State) : State × List WriteEvent :=
  goTo st ((st.current : Int) - 1)

/-- The visibility list right after the initialization loop
`slides.forEach((slide, idx) => { if (idx !== 0) slide.style.display = 'none'; })`:
the host page shows every slide by default, the loop hides all but
index 0. -/
def initVisible (n : Nat) : List Bool :=
  (List.range n).map (fun idx => if idx ≠ 0 then false else true)

/-- The initialization sequence at the bottom of the script: collect
the slides, hide all but slide 0, `current = 0`, then
`updateBreadcrumbs(); updateNav();`. -/
def init (slides : List Slide) : State :=
  let st0 : State :=
    { slides := slides
      visible := initVisible slides.length
      current := 0
      crumbs := []
      prevDisabled := false
      nextDisabled := false }
  ((updateNav (updateBreadcrumbs st0).1).1)

/-- An input event: a breadcrumb click carrying its index (`goTo i`),
a next-button click or right-arrow key (`next`), a prev-button click or
left-arrow key (`prev`). -/
inductive Op where
  | go (i : Int)
  | stepNext
  | stepPrev
deriving DecidableEq, Repr

/-- Dispatch one input event. -/
def applyOp (st : State) (op : Op) : State :=
  match op with
  | Op.go i => (goTo st i).1
  | Op.stepNext => (next st).1
  | Op.stepPrev => (prev st).1

/-- The state after initialization on `slides` followed by an arbitrary
sequence of input events. -/
def run (slides : List Slide) (ops : List Op) : State :=
  ops.foldl applyOp (init slides)

/-- The expected visibility pattern for a deck of `n` slides with the
slide at `c` shown: slide `i` is visible iff `i = c`. -/
def indicator (n c : Nat) : List Bool :=
  (List.range n).map (fun i => decide (i = c))

/-- The controller's consistency invariant: the current index is in
range, exactly the current slide is visible, the breadcrumb container
holds exactly the crumbs `updateBreadcrumbs` builds from the slide list
and the current index, and both buttons carry the flags `updateNav`
computes. -/
def Good (st : State) : Prop :=
  st.current < st.slides.length ∧
  st.visible = indicator st.slides.length st.current ∧
  st.crumbs = buildCrumbs st.slides st.current 0 ∧
  st.prevDisabled = decide (st.current = 0) ∧
  st.nextDisabled = decide ((st.current : Int) = (st.slides.length : Int) - 1)

/-- A concrete two-slide deck used to instantiate the theorems below on
closed inputs. -/
def sampleDeck : List Slide := [{ title := some "Intro" }, { title := none }]

/-! ## Helper lemmas -/

theorem indicator_length (n c : Nat) : (indicator n c).length = n := by
  simp [indicator]

theorem indicator_getElem? (n c j : Nat) :
    (indicator n c)[j]? = if j < n then some (decide (j = c)) else none := by
  by_cases h : j < n
  · rw [if_pos h]
    simp [indicator, List.getElem?_range h]
  · rw [if_neg h]
    apply List.getElem?_eq_none
    simp only [indicator_length]
    omega

theorem initVisible_eq (n : Nat) : initVisible n = indicator n 0 := by
  unfold initVisible indicator
  apply List.map_congr_left
  intro i _
  by_cases h : i = 0 <;> simp [h]

theorem indicator_succ (n c : Nat) :
    indicator (n + 1) c = indicator n c ++ [decide (n = c)] := by
  simp [indicator, List.range_succ]

theorem indicator_count (n c : Nat) :
    (indicator n c).count true = if c < n then 1 else 0 := by
  induction n with
  | zero => simp [indicator]
  | succ n ih =>
    rw [indicator_succ, List.count_append, ih]
    by_cases h : n = c
    · subst h
      simp
    · simp only [List.count_singleton, decide_eq_true_eq]
      simp [h]
      split_ifs <;> omega

theorem indicator_set (n c c' : Nat) (hc : c < n) (hc' : c' < n) (hne : c ≠ c') :
    ((indicator n c).set c false).set c' true = indicator n c' := by
  apply List.ext_getElem?
  intro j
  rw [List.getElem?_set, List.getElem?_set]
  simp only [List.length_set, indicator_length, indicator_getElem?]
  by_cases h1 : c' = j
  · subst h1
    rw [if_pos rfl, if_pos hc', if_pos hc']
    simp
  · rw [if_neg h1]
    by_cases h2 : c = j
    · subst h2
      rw [if_pos rfl, if_pos hc, if_pos hc]
      simp [hne]
    · rw [if_neg h2]
      by_cases hj : j < n
      · rw [if_pos hj, if_pos hj]
        simp only [Option.some.injEq, decide_eq_decide]
        exact iff_of_false (fun hh => h2 hh.symm) (fun hh => h1 hh.symm)
      · rw [if_neg hj, if_neg hj]

theorem mkCrumb_isActive (s : Slide) (i c : Nat) :
    (mkCrumb s i c).isActive = decide (i = c) := by
  by_cases h : i = c <;> simp [mkCrumb, Crumb.isActive, h]

theorem buildCrumbs_length (slides : List Slide) (c : Nat) :
    ∀ k, (buildCrumbs slides c k).length = slides.length := by
  induction slides with
  | nil => intro k; rfl
  | cons s rest ih => intro k; simp [buildCrumbs, ih]

theorem buildCrumbs_getElem? (slides : List Slide) (c : Nat) :
    ∀ k j, (buildCrumbs slides c k)[j]? =
      Option.map (fun s => mkCrumb s (k + j) c) slides[j]? := by
  induction slides with
  | nil => intro k j; rfl
  | cons s rest ih =>
    intro k j
    cases j with
    | zero => simp [buildCrumbs]
    | succ j =>
      have harith : k + 1 + j = k + (j + 1) := by omega
      simp only [buildCrumbs, List.getElem?_cons_succ, ih (k + 1) j, harith]

theorem buildCrumbs_countActive (slides : List Slide) (c : Nat) :
    ∀ k, (buildCrumbs slides c k).countP (fun cr => cr.isActive) =
      if k ≤ c ∧ c < k + slides.length then 1 else 0 := by
  induction slides with
  | nil =>
    intro k
    rw [buildCrumbs]
    simp only [List.countP_nil, List.length_nil]
    split_ifs with h
    · omega
    · rfl
  | cons s rest ih =>
    intro k
    rw [buildCrumbs, List.countP_cons, ih (k + 1), mkCrumb_isActive]
    simp only [List.length_cons, decide_eq_true_eq]
    split_ifs <;> omega

theorem jsClamp_nonneg (i : Int) (n : Nat) : 0 ≤ jsClamp i n :=
  le_max_left 0 _

theorem jsClamp_lt (i : Int) (n : Nat) (hn : 1 ≤ n) : jsClamp i n < (n : Int) := by
  have h : max 0 (min i ((n : Int) - 1)) ≤ (n : Int) - 1 :=
    max_le (by omega) (min_le_right _ _)
  unfold jsClamp
  omega

theorem jsClamp_toNat_lt (i : Int) (n : Nat) (hn : 1 ≤ n) : (jsClamp i n).toNat < n := by
  have h1 := jsClamp_lt i n hn
  have h2 := jsClamp_nonneg i n
  omega

theorem jsClamp_toNat_cast (i : Int) (n : Nat) : ((jsClamp i n).toNat : Int) = jsClamp i n :=
  Int.toNat_of_nonneg (jsClamp_nonneg i n)

theorem goTo_of_eq (st : State) (i : Int)
    (h : jsClamp i st.slides.length = (st.current : Int)) :
    goTo st i = (st, []) := by
  unfold goTo
  rw [if_pos h]

theorem goTo_of_ne (st : State) (i : Int)
    (h : ¬ jsClamp i st.slides.length = (st.current : Int)) :
    goTo st i =
      ({ slides := st.slides
         visible := (st.visible.set st.current false).set (jsClamp i st.slides.length).toNat true
         current := (jsClamp i st.slides.length).toNat
         crumbs := buildCrumbs st.slides (jsClamp i st.slides.length).toNat 0
         prevDisabled := decide ((jsClamp i st.slides.length).toNat = 0)
         nextDisabled := decide (((jsClamp i st.slides.length).toNat : Int) = (st.slides.length : Int) - 1) },
       WriteEvent.setDisplay st.current false ::
         WriteEvent.setDisplay (jsClamp i st.slides.length).toNat true ::
         ((WriteEvent.clearBreadcrumbs ::
            (buildCrumbs st.slides (jsClamp i st.slides.length).toNat 0).map WriteEvent.appendCrumb) ++
          [WriteEvent.setPrevDisabled (decide ((jsClamp i st.slides.length).toNat = 0)),
           WriteEvent.setNextDisabled (decide (((jsClamp i st.slides.length).toNat : Int) = (st.slides.length : Int) - 1))])) := by
  unfold goTo
  rw [if_neg h]
  rfl

theorem goTo_good (st : State) (i : Int) (h : Good st) :
    Good (goTo st i).1 ∧ (goTo st i).1.slides = st.slides := by
  obtain ⟨hcur, hvis, hcr, hp, hnx⟩ := h
  by_cases he : jsClamp i st.slides.length = (st.current : Int)
  · rw [goTo_of_eq st i he]
    exact ⟨⟨hcur, hvis, hcr, hp, hnx⟩, rfl⟩
  · rw [goTo_of_ne st i he]
    have hn1 : 1 ≤ st.slides.length := Nat.lt_of_le_of_lt (Nat.zero_le _) hcur
    have hnew : (jsClamp i st.slides.length).toNat < st.slides.length :=
      jsClamp_toNat_lt i st.slides.length hn1
    have hne : st.current ≠ (jsClamp i st.slides.length).toNat := by
      intro hh
      apply he
      rw [← jsClamp_toNat_cast i st.slides.length, ← hh]
    refine ⟨⟨hnew, ?_, rfl, rfl, rfl⟩, rfl⟩
    rw [hvis, indicator_set st.slides.length st.current _ hcur hnew hne]

theorem next_good (st : State) (h : Good st) :
    Good (next st).1 ∧ (next st).1.slides = st.slides :=
  goTo_good st _ h

theorem prev_good (st : State) (h : Good st) :
    Good (prev st).1 ∧ (prev st).1.slides = st.slides :=
  goTo_good st _ h

theorem applyOp_good (st : State) (op : Op) (h : Good st) :
    Good (applyOp st op) ∧ (applyOp st op).slides = st.slides := by
  cases op with
  | go i => exact goTo_good st i h
  | stepNext => exact next_good st h
  | stepPrev => exact prev_good st h

theorem init_slides (slides : List Slide) : (init slides).slides = slides := rfl

theorem init_good (slides : List Slide) (h1 : 1 ≤ slides.length) :
    Good (init slides) := by
  refine ⟨h1, ?_, rfl, rfl, rfl⟩
  exact initVisible_eq slides.length

theorem run_good (slides : List Slide) (ops : List Op) (h1 : 1 ≤ slides.length) :
    Good (run slides ops) ∧ (run slides ops).slides = slides := by
  suffices h : ∀ st : State, Good st → st.slides = slides →
      Good (ops.foldl applyOp st) ∧ (ops.foldl applyOp st).slides = slides by
    exact h (init slides) (init_good slides h1) (init_slides slides)
  induction ops with
  | nil => exact fun st hg hs => ⟨hg, hs⟩
  | cons op rest ih =>
    intro st hg hs
    obtain ⟨hg', hs'⟩ := applyOp_good st op hg
    exact ih (applyOp st op) hg' (hs'.trans hs)

/-! ## The claims -/

/-- C1: for every deck with at least one slide and every integer
argument `i` (negative values and values ≥ N included), after `goTo i`
the current index equals `max 0 (min i (N - 1))`.  `goTo` is a total
Lean function translated from the source, so no error is raised for
out-of-range `i`. -/
theorem claim_C1 (st : State) (i : Int) (_hN : 1 ≤ st.slides.length) :
    ((goTo st i).1.current : Int) = max 0 (min i ((st.slides.length : Int) - 1)) := by
  by_cases he : jsClamp i st.slides.length = (st.current : Int)
  · rw [goTo_of_eq st i he, ← he]
    rfl
  · rw [goTo_of_ne st i he]
    rw [jsClamp_toNat_cast]
    rfl

/-- C1 witness: the theorem applied to the concrete two-slide deck and
the out-of-range request `goTo 7`. -/
theorem claim_C1_witness :
    1 ≤ (init sampleDeck).slides.length ∧
    ((goTo (init sampleDeck) 7).1.current : Int) =
      max 0 (min 7 (((init sampleDeck).slides.length : Int) - 1)) :=
  ⟨by decide, claim_C1 (init sampleDeck) 7 (by decide)⟩

/-- C2: for every deck with at least one slide, in every state reachable
from initialization by any sequence of `goTo`/`next`/`prev` calls, the
current index stays in `[0, N)`, exactly one slide is visible, and the
visible slide is exactly the one at the current index. -/
theorem claim_C2 (slides : List Slide) (ops : List Op) (hN : 1 ≤ slides.length) :
    (run slides ops).current < slides.length ∧
    (run slides ops).visible.count true = 1 ∧
    ∀ j : Nat, (run slides ops).visible[j]? = some true ↔ j = (run slides ops).current := by
  obtain ⟨⟨hcur, hvis, -, -, -⟩, hs⟩ := run_good slides ops hN
  rw [hs] at hcur hvis
  refine ⟨hcur, ?_, ?_⟩
  · rw [hvis, indicator_count, if_pos hcur]
  · intro j
    rw [hvis, indicator_getElem?]
    by_cases hj : j < slides.length
    · rw [if_pos hj]
      simp
    · rw [if_neg hj]
      constructor
      · intro h'
        exact absurd h' (by simp)
      · intro h'
        exfalso
        omega

/-- C2 witness: the invariant evaluated on the two-slide deck after one
`next` click. -/
theorem claim_C2_witness :
    1 ≤ sampleDeck.length ∧
    ((run sampleDeck [Op.stepNext]).current < sampleDeck.length ∧
     (run sampleDeck [Op.stepNext]).visible.count true = 1 ∧
     ∀ j : Nat, (run sampleDeck [Op.stepNext]).visible[j]? = some true ↔
       j = (run sampleDeck [Op.stepNext]).current) :=
  ⟨by decide, claim_C2 sampleDeck [Op.stepNext] (by decide)⟩

/-- C3: when the clamped target of `goTo i` equals the current index
(in particular `goTo current`, `next` at the last index and `prev` at
index 0, which delegate to `goTo`), the resulting state — current
index, every slide's visibility, the breadcrumb children and both
buttons' flags — is exactly the state before the call. -/
theorem claim_C3 (st : State) (i : Int)
    (h : jsClamp i st.slides.length = (st.current : Int)) :
    (goTo st i).1 = st := by
  rw [goTo_of_eq st i h]

/-- C3 witness: `goTo (-2)` on the freshly initialized two-slide deck
clamps to 0, the current index, and changes nothing. -/
theorem claim_C3_witness :
    jsClamp (-2) (init sampleDeck).slides.length = ((init sampleDeck).current : Int) ∧
    (goTo (init sampleDeck) (-2)).1 = init sampleDeck :=
  ⟨by decide, claim_C3 (init sampleDeck) (-2) (by decide)⟩

/-- C4: in a state where exactly the current slide is shown, a `goTo`
whose clamped target differs from the current index flips exactly the
old current slide off and exactly the new current slide on, and leaves
every other slide's visibility unchanged. -/
theorem claim_C4 (st : State) (i : Int)
    (hcur : st.current < st.slides.length)
    (hvis : st.visible = indicator st.slides.length st.current)
    (hne : ¬ jsClamp i st.slides.length = (st.current : Int)) :
    st.visible[st.current]? = some true ∧
    (goTo st i).1.visible[st.current]? = some false ∧
    st.visible[(goTo st i).1.current]? = some false ∧
    (goTo st i).1.visible[(goTo st i).1.current]? = some true ∧
    ∀ j : Nat, j ≠ st.current → j ≠ (goTo st i).1.current →
      (goTo st i).1.visible[j]? = st.visible[j]? := by
  have hn1 : 1 ≤ st.slides.length := Nat.lt_of_le_of_lt (Nat.zero_le _) hcur
  have hnew : (jsClamp i st.slides.length).toNat < st.slides.length :=
    jsClamp_toNat_lt i st.slides.length hn1
  have hnewne : st.current ≠ (jsClamp i st.slides.length).toNat := by
    intro hh
    apply hne
    rw [← jsClamp_toNat_cast i st.slides.length, ← hh]
  have hst : (goTo st i).1 =
      { slides := st.slides
        visible := (st.visible.set st.current false).set (jsClamp i st.slides.length).toNat true
        current := (jsClamp i st.slides.length).toNat
        crumbs := buildCrumbs st.slides (jsClamp i st.slides.length).toNat 0
        prevDisabled := decide ((jsClamp i st.slides.length).toNat = 0)
        nextDisabled := decide (((jsClamp i st.slides.length).toNat : Int) = (st.slides.length : Int) - 1) } :=
    congrArg Prod.fst (goTo_of_ne st i hne)
  rw [hst, hvis]
  dsimp only
  rw [indicator_set st.slides.length st.current _ hcur hnew hnewne]
  refine ⟨?_, ?_, ?_, ?_, ?_⟩
  · rw [indicator_getElem?, if_pos hcur]
    simp
  · rw [indicator_getElem?, if_pos hcur]
    simp [hnewne]
  · rw [indicator_getElem?, if_pos hnew]
    simp [Ne.symm hnewne]
  · rw [indicator_getElem?, if_pos hnew]
    simp
  · intro j hj1 hj2
    rw [indicator_getElem?, indicator_getElem?]
    by_cases hj : j < st.slides.length
    · rw [if_pos hj, if_pos hj]
      simp [hj1, hj2]
    · rw [if_neg hj, if_neg hj]

/-- C4 witness: `goTo 1` from slide 0 of the two-slide deck hides
slide 0, shows slide 1 and touches nothing else. -/
theorem claim_C4_witness :
    (init sampleDeck).current < (init sampleDeck).slides.length ∧
    (init sampleDeck).visible = indicator (init sampleDeck).slides.length (init sampleDeck).current ∧
    (¬ jsClamp 1 (init sampleDeck).slides.length = ((init sampleDeck).current : Int)) ∧
    ((init sampleDeck).visible[(init sampleDeck).current]? = some true ∧
     (goTo (init sampleDeck) 1).1.visible[(init sampleDeck).current]? = some false ∧
     (init sampleDeck).visible[(goTo (init sampleDeck) 1).1.current]? = some false ∧
     (goTo (init sampleDeck) 1).1.visible[(goTo (init sampleDeck) 1).1.current]? = some true ∧
     ∀ j : Nat, j ≠ (init sampleDeck).current → j ≠ (goTo (init sampleDeck) 1).1.current →
       (goTo (init sampleDeck) 1).1.visible[j]? = (init sampleDeck).visible[j]?) :=
  ⟨by decide, by decide, by decide,
   claim_C4 (init sampleDeck) 1 (by decide) (by decide) (by decide)⟩

/-- C5: after initialization and after any sequence of navigations on a
deck with at least one slide, the previous button is disabled exactly
when the current index is 0 and the next button is disabled exactly
when it is N-1. -/
theorem claim_C5 (slides : List Slide) (ops : List Op) (hN : 1 ≤ slides.length) :
    ((run slides ops).prevDisabled = true ↔ (run slides ops).current = 0) ∧
    ((run slides ops).nextDisabled = true ↔ (run slides ops).current = slides.length - 1) := by
  obtain ⟨⟨hcur, -, -, hp, hnx⟩, hs⟩ := run_good slides ops hN
  rw [hs] at hnx
  constructor
  · rw [hp]
    simp
  · rw [hnx]
    simp only [decide_eq_true_eq]
    omega

/-- C5 witness: the button flags after clicking the crumb for an
out-of-range index 5 on the two-slide deck (which lands on the last
slide). -/
theorem claim_C5_witness :
    1 ≤ sampleDeck.length ∧
    (((run sampleDeck [Op.go 5]).prevDisabled = true ↔ (run sampleDeck [Op.go 5]).current = 0) ∧
     ((run sampleDeck [Op.go 5]).nextDisabled = true ↔
       (run sampleDeck [Op.go 5]).current = sampleDeck.length - 1)) :=
  ⟨by decide, claim_C5 sampleDeck [Op.go 5] (by decide)⟩

/-- C6: after initialization and after any sequence of navigations on a
deck with at least one slide, the breadcrumb container is exactly the
full rebuild from the slide list and the current index: one crumb per
slide in order, exactly one crumb flagged active, crumb `j` built from
slide `j` with click index `j`, and crumb `j` active exactly when `j`
is the current index. -/
theorem claim_C6 (slides : List Slide) (ops : List Op) (hN : 1 ≤ slides.length) :
    (run slides ops).crumbs = buildCrumbs slides (run slides ops).current 0 ∧
    (run slides ops).crumbs.length = slides.length ∧
    (run slides ops).crumbs.countP (fun c => c.isActive) = 1 ∧
    (∀ j : Nat, (run slides ops).crumbs[j]? =
      Option.map (fun s => mkCrumb s j (run slides ops).current) slides[j]?) ∧
    ∀ j : Nat, ∀ c : Crumb, (run slides ops).crumbs[j]? = some c →
      c.clickIndex = j ∧ (c.isActive = true ↔ j = (run slides ops).current) := by
  obtain ⟨⟨hcur, -, hcr, -, -⟩, hs⟩ := run_good slides ops hN
  rw [hs] at hcur hcr
  have hget : ∀ j : Nat, (run slides ops).crumbs[j]? =
      Option.map (fun s => mkCrumb s j (run slides ops).current) slides[j]? := by
    intro j
    rw [hcr, buildCrumbs_getElem?]
    simp
  refine ⟨hcr, ?_, ?_, hget, ?_⟩
  · rw [hcr, buildCrumbs_length]
  · rw [hcr, buildCrumbs_countActive]
    rw [if_pos ⟨Nat.zero_le _, by omega⟩]
  · intro j c hc
    rw [hget j] at hc
    cases hsj : slides[j]? with
    | none =>
      rw [hsj] at hc
      simp at hc
    | some s =>
      rw [hsj] at hc
      obtain rfl : mkCrumb s j (run slides ops).current = c := by simpa using hc
      refine ⟨rfl, ?_⟩
      rw [mkCrumb_isActive]
      simp

/-- C6 witness: the breadcrumb facts after a `prev` click on the fresh
two-slide deck. -/
theorem claim_C6_witness :
    1 ≤ sampleDeck.length ∧
    ((run sampleDeck [Op.stepPrev]).crumbs =
       buildCrumbs sampleDeck (run sampleDeck [Op.stepPrev]).current 0 ∧
     (run sampleDeck [Op.stepPrev]).crumbs.length = sampleDeck.length ∧
     (run sampleDeck [Op.stepPrev]).crumbs.countP (fun c => c.isActive) = 1 ∧
     (∀ j : Nat, (run sampleDeck [Op.stepPrev]).crumbs[j]? =
       Option.map (fun s => mkCrumb s j (run sampleDeck [Op.stepPrev]).current) sampleDeck[j]?) ∧
     ∀ j : Nat, ∀ c : Crumb, (run sampleDeck [Op.stepPrev]).crumbs[j]? = some c →
       c.clickIndex = j ∧ (c.isActive = true ↔ j = (run sampleDeck [Op.stepPrev]).current)) :=
  ⟨by decide, claim_C6 sampleDeck [Op.stepPrev] (by decide)⟩

/-- C7: `next` is definitionally `goTo (current + 1)` and `prev` is
definitionally `goTo (current - 1)` — both delegate with no further
logic, producing exactly the same resulting state and the same DOM
writes. -/
theorem claim_C7 (st : State) :
    next st = goTo st ((st.current : Int) + 1) ∧
    prev st = goTo st ((st.current : Int) - 1) :=
  ⟨rfl, rfl⟩

/-- C8 counterexample: the fallback label of an untitled slide at
position 0 is not the string `"Slide 1"` the claim names (the code
generates the Russian `"Слайд 1"`). -/
theorem claim_C8_counterexample :
    ¬ Option.map Crumb.label ((buildCrumbs [{ title := none }] 0 0)[0]?) =
      some ("Slide " ++ toString (0 + 1)) := by
  decide

/-- C8 (amended): for every slide at 0-based position `k` with no
display title, the generated breadcrumb label is the string
`"Слайд "` followed by the 1-based index `k + 1`. -/
theorem claim_C8 (slides : List Slide) (c k : Nat) (s : Slide)
    (hs : slides[k]? = some s) (ht : s.title = none) :
    Option.map Crumb.label ((buildCrumbs slides c 0)[k]?) =
      some ("Слайд " ++ toString (k + 1)) := by
  rw [buildCrumbs_getElem?, hs]
  simp [mkCrumb, jsOr, ht]

/-- C8 witness: the amended label fact on a one-slide deck whose slide
has no title. -/
theorem claim_C8_witness :
    ([{ title := none }] : List Slide)[0]? = some { title := none } ∧
    ({ title := none } : Slide).title = none ∧
    Option.map Crumb.label ((buildCrumbs [{ title := none }] 0 0)[0]?) =
      some ("Слайд " ++ toString (0 + 1)) :=
  ⟨rfl, rfl, claim_C8 [{ title := none }] 0 0 { title := none } rfl rfl⟩

/-- C9: on an empty deck in its initial position, `goTo i` terminates
for every integer `i` with the clamped target 0, which equals the
current index, so the no-op guard returns before any slide is accessed:
the state is unchanged and no DOM write happens. -/
theorem claim_C9 (st : State) (i : Int) (h0 : st.slides = []) (hc : st.current = 0) :
    goTo st i = (st, []) ∧ jsClamp i st.slides.length = 0 := by
  have hclamp : jsClamp i st.slides.length = 0 := by
    rw [h0]
    unfold jsClamp
    apply max_eq_left
    exact le_trans (min_le_right _ _) (by simp)
  refine ⟨goTo_of_eq st i ?_, hclamp⟩
  rw [hclamp, hc]
  simp

/-- C9 witness: `goTo (-7)` on the initialized empty deck. -/
theorem claim_C9_witness :
    (init []).slides = [] ∧ (init []).current = 0 ∧
    (goTo (init []) (-7) = (init [], []) ∧ jsClamp (-7) (init []).slides.length = 0) :=
  ⟨rfl, rfl, claim_C9 (init []) (-7) rfl rfl⟩

/-- C10: on a no-op navigation (clamped target equals the current
index) the controller performs no DOM write at all — the write trace of
`goTo` is empty, so the breadcrumb container is not cleared or rebuilt
and the button flags are not rewritten. -/
theorem claim_C10 (st : State) (i : Int)
    (h : jsClamp i st.slides.length = (st.current : Int)) :
    (goTo st i).2 = [] := by
  rw [goTo_of_eq st i h]

/-- C10 witness: `goTo 0` at slide 0 of the two-slide deck writes
nothing. -/
theorem claim_C10_witness :
    jsClamp 0 (init sampleDeck).slides.length = ((init sampleDeck).current : Int) ∧
    (goTo (init sampleDeck) 0).2 = [] :=
  ⟨by decide, claim_C10 (init sampleDeck) 0 (by decide)⟩

end SlideNav
